import Mathlib

/-!
Shallow embedding of the document-teaching assistant's session-store core:
the document loader (`DocumentLoadTool._run`), the page navigator
(`PageReaderTool._run`) and the voice configuration controller
(`VoiceControlTool._run`), together with theorems checking the
specification's claims about them.

Python machine-level conventions modelled explicitly:
* `st.session_state.document_store` is an `Option DocumentStore`
  (absent key = `none`); the uploaded-file registry is a list.
* Python `int` indices are `Int`; Python list indexing (including the
  IndexError raised on an out-of-range index, which the tool's
  `except` block converts to an error string) is `pyGet`.
* String helpers (`str.lower`, `str.split`, `str.strip`, `int(...)`,
  `str.startswith`, `os.path.splitext`) are reimplemented structurally
  over the character list of the string.
-/

/-- One parsed page, as produced by a langchain loader
(`langchain_core.documents.Document`): only `page_content` is read. -/
structure Document where
  page_content : String
deriving DecidableEq

/-- The `st.session_state.document_store` dict set up by
`DocumentLoadTool._run` (lines 23-29 of document_loader.py). -/
structure DocumentStore where
  document_pages : List Document
  current_page_index : Int
  total_pages : Int
  document_name : String
deriving DecidableEq

/-- The empty store written by the loader when the session has no store yet
(document_loader.py lines 23-29). -/
def emptyDocumentStore : DocumentStore :=
  { document_pages := []
    current_page_index := 0
    total_pages := 0
    document_name := "" }

/-- Python `str.lower()` (ASCII model, via `Char.toLower`). -/
def lowerStr (s : String) : String :=
  String.mk (s.data.map Char.toLower)

/-- Python `str.upper()` (ASCII model, via `Char.toUpper`). -/
def upperStr (s : String) : String :=
  String.mk (s.data.map Char.toUpper)

/-- Python `s.startswith(pre)`. -/
def strStartsWith (s pre : String) : Bool :=
  pre.data.isPrefixOf s.data

/-- Helper for `pySplit`: split a character list at a separator. -/
def splitCharAux (sep : Char) : List Char → List Char → List (List Char)
  | [], acc => [acc.reverse]
  | c :: cs, acc =>
    if c = sep then acc.reverse :: splitCharAux sep cs []
    else splitCharAux sep cs (c :: acc)

/-- Python `s.split(sep)` for a one-character separator. -/
def pySplit (sep : Char) (s : String) : List String :=
  (splitCharAux sep s.data []).map String.mk

/-- Python `s.strip()` (whitespace model via `Char.isWhitespace`). -/
def pyStrip (s : String) : String :=
  String.mk
    (((s.data.dropWhile Char.isWhitespace).reverse.dropWhile Char.isWhitespace).reverse)

/-- Decimal value of a digit list (no validity check; callers validate). -/
def natOfDigits (cs : List Char) : Nat :=
  cs.foldl (fun acc c => acc * 10 + (c.toNat - 48)) 0

/-- Python `int(s)`: optional surrounding whitespace, optional sign,
then decimal digits; `none` models a raised `ValueError`. -/
def parsePyInt (s : String) : Option Int :=
  let t := pyStrip s
  let sd : Int × List Char :=
    match t.data with
    | '-' :: rest => (-1, rest)
    | '+' :: rest => (1, rest)
    | cs => (1, cs)
  if sd.2 ≠ [] ∧ sd.2.all Char.isDigit then
    some (sd.1 * (natOfDigits sd.2 : Int))
  else none

/-- Python list indexing `l[i]` with an `Int` index: non-negative indexes
from the front, negative from the back, `none` models `IndexError`. -/
def pyGet (l : List Document) (i : Int) : Option Document :=
  if 0 ≤ i then l[i.toNat]?
  else if (-i) ≤ (l.length : Int) then l[l.length - (-i).toNat]?
  else none

/-- Extension part of Python `os.path.splitext(name)` for a bare file name:
from the last dot, provided some earlier character of the name is not a
dot (so dotfiles like `.txt` have no extension). -/
def splitextExt (name : String) : String :=
  match name.data.reverse.findIdx? (fun c => c == '.') with
  | none => ""
  | some r =>
    let dotIndex := name.data.length - 1 - r
    if (name.data.take dotIndex).any (fun c => c != '.') then
      String.mk (name.data.drop dotIndex)
    else ""

/-! ### Page reader (`PageReaderTool._run`, page_reader.py) -/

/-- Message for an `IndexError` escaping to the tool's `except` handler
(page_reader.py lines 67-69). -/
def readErrMsg : String := "Error reading page: list index out of range"

/-- The formatted page excerpt (page_reader.py lines 25, 31, 39, 50). -/
def pageMsg (store : DocumentStore) (page : Document) : String :=
  "[Page " ++ toString (store.current_page_index + 1) ++ "/" ++
    toString store.total_pages ++ " of \"" ++ store.document_name ++
    "\"]\n\n" ++ page.page_content

/-- Index into the current store and format the page; an out-of-range
index becomes the `except`-handler message. -/
def renderPage (store : DocumentStore) : String :=
  match pyGet store.document_pages store.current_page_index with
  | some page => pageMsg store page
  | none => readErrMsg

/-- Boundary message of `next_page` (page_reader.py line 33). -/
def lastPageMsg (total : Int) : String :=
  "You are already at the last page (" ++ toString total ++ ") of the document."

/-- Boundary message of `previous_page` (page_reader.py line 41). -/
def firstPageMsg : String :=
  "You are already at the first page of the document."

/-- Range-error message of `go_to_page` (page_reader.py line 47). -/
def rangeErrMsg (total : Int) : String :=
  "Invalid page number. Please specify a page between 1 and " ++
    toString total ++ "."

/-- Format-error message of `go_to_page` (page_reader.py line 52). -/
def formatErrMsg : String :=
  "Invalid page number format. Please use \x27go_to_page:X\x27 where X is a number."

/-- `document_summary` output (page_reader.py lines 55-59). -/
def summaryMsg (store : DocumentStore) : String :=
  "Document Information:\n- Name: " ++ store.document_name ++
    "\n- Total Pages: " ++ toString store.total_pages ++
    "\n- Current Page: " ++ toString (store.current_page_index + 1) ++
    "\n- Format: " ++ upperStr (String.mk ((splitextExt store.document_name).data.drop 1))

/-- `page_count` output (page_reader.py line 62). -/
def pageCountMsg (store : DocumentStore) : String :=
  "The document \"" ++ store.document_name ++ "\" contains " ++
    toString store.total_pages ++ " pages."

/-- Unknown-command message (page_reader.py line 65). -/
def unknownMsg (command : String) : String :=
  "Unknown command: \"" ++ command ++
    "\". Valid commands are: \x27read_current_page\x27, \x27next_page\x27, \x27previous_page\x27, \x27go_to_page:\x7bnumber\x7d\x27, \x27document_summary\x27, \x27page_count\x27."

/-- `next_page` branch (page_reader.py lines 27-33): increment only when
strictly below the last index, else boundary message without mutation. -/
def nextPage (store : DocumentStore) : String × DocumentStore :=
  if store.current_page_index < store.total_pages - 1 then
    let store' := { store with current_page_index := store.current_page_index + 1 }
    (renderPage store', store')
  else
    (lastPageMsg store.total_pages, store)

/-- `previous_page` branch (page_reader.py lines 35-41). -/
def prevPage (store : DocumentStore) : String × DocumentStore :=
  if 0 < store.current_page_index then
    let store' := { store with current_page_index := store.current_page_index - 1 }
    (renderPage store', store')
  else
    (firstPageMsg, store)

/-- `go_to_page` branch (page_reader.py lines 43-52): `arg` is the text
after the first colon of the lowercased command; the index is written
before the page is read, as in the source. -/
def goToPage (arg : String) (store : DocumentStore) : String × DocumentStore :=
  match parsePyInt arg with
  | none => (formatErrMsg, store)
  | some n =>
    if n < 1 ∨ store.total_pages < n then
      (rangeErrMsg store.total_pages, store)
    else
      let store' := { store with current_page_index := n - 1 }
      (renderPage store', store')

/-- Command dispatch on the lowercased command `cl` against a loaded
store (page_reader.py lines 22-65); `command` is the original text,
echoed in the unknown-command message. -/
def runLoaded (cl : String) (command : String) (store : DocumentStore) :
    String × DocumentStore :=
  if cl = "read_current_page" then (renderPage store, store)
  else if cl = "next_page" then nextPage store
  else if cl = "previous_page" then prevPage store
  else if strStartsWith cl "go_to_page:" then
    goToPage ((pySplit ':' cl).getD 1 "") store
  else if cl = "document_summary" then (summaryMsg store, store)
  else if cl = "page_count" then (pageCountMsg store, store)
  else (unknownMsg command, store)

/-- Guidance message when the session has no document store at all
(page_reader.py line 15). -/
def noStoreMsg : String :=
  "No document store initialized. Please use the document_loader tool first."

/-- Guidance message when the store has no pages (page_reader.py line 18). -/
def noDocMsg : String :=
  "No document is currently loaded. Please use the document_loader tool first."

/-- `PageReaderTool._run`: the full tool, returning the reply and the
session store afterwards. -/
def pageReaderRun (command : String) (store? : Option DocumentStore) :
    String × Option DocumentStore :=
  match store? with
  | none => (noStoreMsg, none)
  | some store =>
    if store.document_pages = [] then (noDocMsg, some store)
    else
      ((runLoaded (lowerStr command) command store).1,
       some (runLoaded (lowerStr command) command store).2)

/-! ### Document loader (`DocumentLoadTool._run`, document_loader.py) -/

/-- Raw uploaded bytes (opaque to the core; parsers consume them). -/
abbrev Bytes := List Nat

/-- One entry of `st.session_state.uploaded_files`: `name` and the bytes
returned by `getvalue()`. -/
structure UploadedFile where
  name : String
  content : Bytes
deriving DecidableEq

/-- The external format-specific parsers (PyPDFLoader, Docx2txtLoader,
CSVLoader, and the utf-8 text read); each may fail, modelling a raised
exception carrying its message. -/
structure Parsers where
  pdf : Bytes → Except String (List Document)
  word : Bytes → Except String (List Document)
  csv : Bytes → Except String (List Document)
  readTxt : Bytes → Except String String

/-- The extension dispatch of document_loader.py lines 43-58: `none`
means the unsupported-format branch; `some r` runs the chosen parser
(the `.txt` branch wraps the decoded text in a single page). -/
def dispatchParse (P : Parsers) (ext : String) (content : Bytes) :
    Option (Except String (List Document)) :=
  if ext = ".pdf" then some (P.pdf content)
  else if ext = ".docx" ∨ ext = ".doc" then some (P.word content)
  else if ext = ".csv" then some (P.csv content)
  else if ext = ".txt" then
    some ((P.readTxt content).map (fun t => [{ page_content := t }]))
  else none

/-- The `for uploaded_file in uploaded_files: if uploaded_file.name ==
document_name` loop (document_loader.py lines 32-33): first match wins. -/
def findUploaded (files : List UploadedFile) (document_name : String) :
    Option UploadedFile :=
  match files with
  | [] => none
  | f :: rest =>
    if f.name = document_name then some f else findUploaded rest document_name

/-- Message when the registry is empty (document_loader.py line 20). -/
def noFilesMsg : String :=
  "Error: No files have been uploaded. Please upload a file first."

/-- Message when no uploaded file has the requested name
(document_loader.py line 70). -/
def fileNotFoundMsg (document_name : String) : String :=
  "Error: File \"" ++ document_name ++
    "\" not found. Please check the filename and try again."

/-- Unsupported-extension message (document_loader.py line 58). -/
def unsupportedMsg (ext : String) : String :=
  "Error: Unsupported file format \"" ++ ext ++
    "\". Supported formats are PDF, DOCX, CSV, and TXT."

/-- Success message (document_loader.py line 67). -/
def loadSuccessMsg (name : String) (total : Int) : String :=
  "Successfully loaded " ++ name ++ " with " ++ toString total ++
    " pages. You can now use the page_reader tool to explore the document page by page. Start with \"read_current_page\" to view the first page."

/-- Message produced by the `except` handler (document_loader.py line 74). -/
def loadErrorMsg (e : String) : String := "Error loading document: " ++ e

/-- Everything observable about one `DocumentLoadTool._run` call: the
returned message, the session store afterwards, and whether the
on-disk temporary buffer was created / deleted during the call. -/
structure LoadOutcome where
  message : String
  store : Option DocumentStore
  tempCreated : Bool
  tempDeleted : Bool
deriving DecidableEq

/-- `DocumentLoadTool._run document_name` over registry `uploaded` and
current session store `store?`. Control flow mirrors the source: empty
registry short-circuits before the store is initialized; otherwise a
missing store is replaced by `emptyDocumentStore`; a name match creates
the temporary file, dispatches on the lowercased `splitext` extension,
and deletes the temporary file on the unsupported branch (line 57) and
after a successful parse (line 65) — but not when the parser fails,
since the exception jumps straight to the `except` handler (line 72). -/
def documentLoaderRun (P : Parsers) (uploaded : List UploadedFile)
    (document_name : String) (store? : Option DocumentStore) : LoadOutcome :=
  if uploaded = [] then
    { message := noFilesMsg, store := store?
      tempCreated := false, tempDeleted := false }
  else
    let store0 := store?.getD emptyDocumentStore
    match findUploaded uploaded document_name with
    | none =>
      { message := fileNotFoundMsg document_name, store := some store0
        tempCreated := false, tempDeleted := false }
    | some file =>
      let ext := lowerStr (splitextExt file.name)
      match dispatchParse P ext file.content with
      | none =>
        { message := unsupportedMsg ext, store := some store0
          tempCreated := true, tempDeleted := true }
      | some (Except.error e) =>
        { message := loadErrorMsg e, store := some store0
          tempCreated := true, tempDeleted := false }
      | some (Except.ok docs) =>
        { message := loadSuccessMsg file.name (docs.length : Int)
          store := some { document_pages := docs
                          current_page_index := 0
                          total_pages := (docs.length : Int)
                          document_name := file.name }
          tempCreated := true, tempDeleted := true }

/-! ### Voice control (`VoiceControlTool._run`, voice_control.py) -/

/-- One language's catalog entry: ordered male and female voice ids. -/
structure VoiceLists where
  male : List String
  female : List String
deriving DecidableEq

/-- `st.session_state.voice_config` (app.py lines 104-144); the catalog
is an association list, preserving declaration order as a Python dict
does. -/
structure VoiceConfig where
  enabled : Bool
  selected_voice : String
  rate : String
  current_language : String
  available_voices : List (String × VoiceLists)
deriving DecidableEq

/-- The `set_voice` search loop (voice_control.py lines 46-51): walk the
catalog in declaration order and stop at the first language whose male
or female list contains the voice exactly. -/
def findVoice (catalog : List (String × VoiceLists)) (voice : String) :
    Option (String × VoiceLists) :=
  match catalog with
  | [] => none
  | p :: rest =>
    if voice ∈ p.2.male ∨ voice ∈ p.2.female then some p
    else findVoice rest voice

/-- `set_voice` success message (voice_control.py line 56). -/
def voiceSetMsg (voice lang : String) : String :=
  "Voice set to " ++ voice ++ " (" ++ lang ++ ")."

/-- `set_voice` not-found message (voice_control.py line 58). -/
def voiceNotFoundMsg (voice : String) : String :=
  "Voice \"" ++ voice ++ "\" not found. Use \x27list_voices\x27 to see available voices."

/-- The `set_voice:` branch of `VoiceControlTool._run` (voice_control.py
lines 41-58), applied to the already-extracted voice id. -/
def setVoice (voice : String) (cfg : VoiceConfig) : String × VoiceConfig :=
  match findVoice cfg.available_voices voice with
  | some p =>
    (voiceSetMsg voice p.1,
     { cfg with selected_voice := voice, current_language := p.1 })
  | none => (voiceNotFoundMsg voice, cfg)

/-! ### Helper lemmas -/

/-- With a loaded store, `pageReaderRun` is the dispatch on the
lowercased command. -/
theorem pageReaderRun_some (command : String) (store : DocumentStore)
    (h : store.document_pages ≠ []) :
    pageReaderRun command (some store) =
      ((runLoaded (lowerStr command) command store).1,
       some (runLoaded (lowerStr command) command store).2) := by
  simp [pageReaderRun, h]

/-- Dispatch at the literal `read_current_page`. -/
theorem runLoaded_read (c : String) (store : DocumentStore) :
    runLoaded "read_current_page" c store = (renderPage store, store) := by
  unfold runLoaded
  rw [if_pos rfl]

/-- Dispatch at the literal `next_page`. -/
theorem runLoaded_next (c : String) (store : DocumentStore) :
    runLoaded "next_page" c store = nextPage store := by
  unfold runLoaded
  rw [if_neg (by decide), if_pos rfl]

/-- Dispatch at the literal `previous_page`. -/
theorem runLoaded_prev (c : String) (store : DocumentStore) :
    runLoaded "previous_page" c store = prevPage store := by
  unfold runLoaded
  rw [if_neg (by decide), if_neg (by decide), if_pos rfl]

/-- Dispatch at the literal `document_summary`. -/
theorem runLoaded_summary (c : String) (store : DocumentStore) :
    runLoaded "document_summary" c store = (summaryMsg store, store) := by
  unfold runLoaded
  rw [if_neg (by decide), if_neg (by decide), if_neg (by decide),
    if_neg (by decide), if_pos rfl]

/-- Dispatch at the literal `page_count`. -/
theorem runLoaded_count (c : String) (store : DocumentStore) :
    runLoaded "page_count" c store = (pageCountMsg store, store) := by
  unfold runLoaded
  rw [if_neg (by decide), if_neg (by decide), if_neg (by decide),
    if_neg (by decide), if_neg (by decide), if_pos rfl]

/-- Every way the dispatch can leave the store: unchanged, or one of the
three index-writing branches with its guard recorded. -/
theorem runLoaded_snd_cases (cl c : String) (store : DocumentStore) :
    (runLoaded cl c store).2 = store ∨
    (cl = "next_page" ∧ store.current_page_index < store.total_pages - 1 ∧
      (runLoaded cl c store).2 =
        { store with current_page_index := store.current_page_index + 1 }) ∨
    (cl = "previous_page" ∧ 0 < store.current_page_index ∧
      (runLoaded cl c store).2 =
        { store with current_page_index := store.current_page_index - 1 }) ∨
    (strStartsWith cl "go_to_page:" = true ∧
      ∃ n : Int, parsePyInt ((pySplit ':' cl).getD 1 "") = some n ∧
        1 ≤ n ∧ n ≤ store.total_pages ∧
        (runLoaded cl c store).2 =
          { store with current_page_index := n - 1 }) := by
  unfold runLoaded
  split_ifs with h1 h2 h3 h4 h5 h6
  · exact Or.inl rfl
  · unfold nextPage
    split_ifs with hg
    · exact Or.inr (Or.inl ⟨h2, hg, rfl⟩)
    · exact Or.inl rfl
  · unfold prevPage
    split_ifs with hg
    · exact Or.inr (Or.inr (Or.inl ⟨h3, hg, rfl⟩))
    · exact Or.inl rfl
  · unfold goToPage
    cases hp : parsePyInt ((pySplit ':' cl).getD 1 "") with
    | none => exact Or.inl rfl
    | some n =>
      dsimp only
      split_ifs with hr
      · exact Or.inl rfl
      · push_neg at hr
        refine Or.inr (Or.inr (Or.inr ⟨h4, n, rfl, ?_, ?_, rfl⟩)) <;> omega
  · exact Or.inl rfl
  · exact Or.inl rfl
  · exact Or.inl rfl

/-! ### Claim theorems -/

/-- C4: with a loaded document and a valid zero-based index, `next_page`
never sets the index past `totalPages - 1` and `previous_page` never
below 0; at the respective edge each returns its boundary message with
the store untouched; and every command preserves the invariant
`0 ≤ currentIndex < len(pages)`. -/
theorem navigation_bounds_and_invariant (store : DocumentStore)
    (hne : store.document_pages ≠ [])
    (hlo : 0 ≤ store.current_page_index)
    (hhi : store.current_page_index < (store.document_pages.length : Int))
    (htot : store.total_pages = (store.document_pages.length : Int)) :
    (∀ s' : DocumentStore, (pageReaderRun "next_page" (some store)).2 = some s' →
       0 ≤ s'.current_page_index ∧
       s'.current_page_index ≤ store.total_pages - 1 ∧
       s'.current_page_index < (s'.document_pages.length : Int)) ∧
    (store.current_page_index = store.total_pages - 1 →
       pageReaderRun "next_page" (some store) =
         (lastPageMsg store.total_pages, some store)) ∧
    (∀ s' : DocumentStore, (pageReaderRun "previous_page" (some store)).2 = some s' →
       0 ≤ s'.current_page_index ∧
       s'.current_page_index < (s'.document_pages.length : Int)) ∧
    (store.current_page_index = 0 →
       pageReaderRun "previous_page" (some store) = (firstPageMsg, some store)) ∧
    (∀ (c : String) (s' : DocumentStore), (pageReaderRun c (some store)).2 = some s' →
       0 ≤ s'.current_page_index ∧
       s'.current_page_index < (s'.document_pages.length : Int)) := by
  have hnext : pageReaderRun "next_page" (some store) =
      ((nextPage store).1, some (nextPage store).2) := by
    rw [pageReaderRun_some _ _ hne,
      show lowerStr "next_page" = "next_page" from by decide, runLoaded_next]
  have hprev : pageReaderRun "previous_page" (some store) =
      ((prevPage store).1, some (prevPage store).2) := by
    rw [pageReaderRun_some _ _ hne,
      show lowerStr "previous_page" = "previous_page" from by decide, runLoaded_prev]
  refine ⟨?_, ?_, ?_, ?_, ?_⟩
  · intro s' hs'
    rw [hnext] at hs'
    replace hs' := Option.some.inj hs'
    unfold nextPage at hs'
    split_ifs at hs' with hg
    · subst hs'
      refine ⟨by simp; omega, by simp; omega, by simp; omega⟩
    · subst hs'
      exact ⟨hlo, by simp; omega, hhi⟩
  · intro hedge
    rw [hnext]
    unfold nextPage
    rw [if_neg (by omega)]
  · intro s' hs'
    rw [hprev] at hs'
    replace hs' := Option.some.inj hs'
    unfold prevPage at hs'
    split_ifs at hs' with hg
    · subst hs'
      refine ⟨by simp; omega, by simp; omega⟩
    · subst hs'
      exact ⟨hlo, hhi⟩
  · intro hedge
    rw [hprev]
    unfold prevPage
    rw [if_neg (by omega)]
  · intro c s' hs'
    rw [pageReaderRun_some c store hne] at hs'
    replace hs' := Option.some.inj hs'
    rcases runLoaded_snd_cases (lowerStr c) c store with h | ⟨_, hg, h⟩ | ⟨_, hg, h⟩ |
      ⟨_, n, _, hn1, hn2, h⟩ <;> rw [h] at hs' <;> subst hs'
    · exact ⟨hlo, hhi⟩
    · exact ⟨by simp; omega, by simp; omega⟩
    · exact ⟨by simp; omega, by simp; omega⟩
    · exact ⟨by simp; omega, by simp; omega⟩

/-- A `go_to_page` argument parsing to an in-range `n` (against a store
whose `total_pages` agrees with its page list) lands on page `n`:
the index becomes `n - 1` and that page is rendered. -/
theorem goToPage_success (arg : String) (n : Int) (store : DocumentStore)
    (hparse : parsePyInt arg = some n) (h1 : 1 ≤ n)
    (h2 : n ≤ store.total_pages)
    (htot : store.total_pages = (store.document_pages.length : Int)) :
    ∃ page, store.document_pages[(n - 1).toNat]? = some page ∧
      goToPage arg store =
        (pageMsg { store with current_page_index := n - 1 } page,
         { store with current_page_index := n - 1 }) := by
  have hlt : (n - 1).toNat < store.document_pages.length := by omega
  refine ⟨store.document_pages[(n - 1).toNat], List.getElem?_eq_getElem hlt, ?_⟩
  unfold goToPage
  rw [hparse]
  dsimp only
  rw [if_neg (by omega)]
  unfold renderPage pyGet
  dsimp only
  rw [if_pos (by omega : (0 : Int) ≤ n - 1), List.getElem?_eq_getElem hlt]

/-- C5: for a loaded, consistent store, `go_to_page` with an unparsable
argument returns the format-error message and leaves the store (hence
any prior valid index) unchanged; a parsed `N` outside `[1, totalPages]`
returns the range-error message and leaves the store unchanged; an
in-range `N` sets the index to `N - 1` and returns that page. -/
theorem go_to_page_validation (arg : String) (store : DocumentStore)
    (htot : store.total_pages = (store.document_pages.length : Int)) :
    (parsePyInt arg = none → goToPage arg store = (formatErrMsg, store)) ∧
    (∀ n : Int, parsePyInt arg = some n → (n < 1 ∨ store.total_pages < n) →
      goToPage arg store = (rangeErrMsg store.total_pages, store)) ∧
    (∀ n : Int, parsePyInt arg = some n → 1 ≤ n → n ≤ store.total_pages →
      ∃ page, store.document_pages[(n - 1).toNat]? = some page ∧
        goToPage arg store =
          (pageMsg { store with current_page_index := n - 1 } page,
           { store with current_page_index := n - 1 })) := by
  refine ⟨?_, ?_, ?_⟩
  · intro h
    unfold goToPage
    rw [h]
  · intro n h hr
    unfold goToPage
    rw [h]
    dsimp only
    rw [if_pos hr]
  · intro n h h1 h2
    exact goToPage_success arg n store h h1 h2 htot

/-- C9: `go_to_page` with a valid page number is idempotent — the second
call returns the same message, leaves the same store, and the index
after the first call is already `N - 1`. -/
theorem go_to_page_idempotent (arg : String) (n : Int) (store : DocumentStore)
    (hparse : parsePyInt arg = some n) (h1 : 1 ≤ n)
    (h2 : n ≤ store.total_pages)
    (htot : store.total_pages = (store.document_pages.length : Int)) :
    (goToPage arg (goToPage arg store).2).1 = (goToPage arg store).1 ∧
    (goToPage arg (goToPage arg store).2).2 = (goToPage arg store).2 ∧
    (goToPage arg store).2.current_page_index = n - 1 := by
  obtain ⟨p1, hp1, he1⟩ := goToPage_success arg n store hparse h1 h2 htot
  obtain ⟨p2, hp2, he2⟩ :=
    goToPage_success arg n { store with current_page_index := n - 1 }
      hparse h1 h2 htot
  have hpp : p2 = p1 := by
    have := hp1.symm.trans hp2
    exact (Option.some.inj this).symm
  rw [he1]
  dsimp only
  rw [he2, hpp]
  exact ⟨rfl, rfl, rfl⟩

/-- C6: for every command, an absent store yields the initialization
guidance message, and a store with no pages yields the load-first
guidance message; in both cases the session state is unchanged. -/
theorem no_document_guidance (command : String) (store : DocumentStore) :
    pageReaderRun command none = (noStoreMsg, none) ∧
    (store.document_pages = [] →
      pageReaderRun command (some store) = (noDocMsg, some store)) := by
  refine ⟨rfl, fun h => ?_⟩
  simp [pageReaderRun, h]

/-- C10: with a loaded document, `read_current_page`, `document_summary`,
`page_count` and every unrecognized command leave the store unchanged;
any command that does change the store is `next_page`, `previous_page`,
or a `go_to_page` whose argument parsed to an in-range page number. -/
theorem read_only_commands_frame (store : DocumentStore)
    (hne : store.document_pages ≠ []) :
    (pageReaderRun "read_current_page" (some store)).2 = some store ∧
    (pageReaderRun "document_summary" (some store)).2 = some store ∧
    (pageReaderRun "page_count" (some store)).2 = some store ∧
    (∀ c : String,
      lowerStr c ≠ "read_current_page" → lowerStr c ≠ "next_page" →
      lowerStr c ≠ "previous_page" →
      strStartsWith (lowerStr c) "go_to_page:" = false →
      lowerStr c ≠ "document_summary" → lowerStr c ≠ "page_count" →
      (pageReaderRun c (some store)).2 = some store) ∧
    (∀ (c : String) (s' : DocumentStore),
      (pageReaderRun c (some store)).2 = some s' → s' ≠ store →
      lowerStr c = "next_page" ∨ lowerStr c = "previous_page" ∨
      (strStartsWith (lowerStr c) "go_to_page:" = true ∧
        ∃ n : Int, parsePyInt ((pySplit ':' (lowerStr c)).getD 1 "") = some n ∧
          1 ≤ n ∧ n ≤ store.total_pages)) := by
  refine ⟨?_, ?_, ?_, ?_, ?_⟩
  · rw [pageReaderRun_some _ _ hne,
      show lowerStr "read_current_page" = "read_current_page" from by decide,
      runLoaded_read]
  · rw [pageReaderRun_some _ _ hne,
      show lowerStr "document_summary" = "document_summary" from by decide,
      runLoaded_summary]
  · rw [pageReaderRun_some _ _ hne,
      show lowerStr "page_count" = "page_count" from by decide,
      runLoaded_count]
  · intro c h1 h2 h3 h4 h5 h6
    rw [pageReaderRun_some _ _ hne]
    unfold runLoaded
    rw [if_neg h1, if_neg h2, if_neg h3, if_neg (by simp [h4]),
      if_neg h5, if_neg h6]
  · intro c s' hs' hchanged
    rw [pageReaderRun_some _ _ hne] at hs'
    replace hs' := Option.some.inj hs'
    rcases runLoaded_snd_cases (lowerStr c) c store with h | ⟨hc, _, _⟩ |
      ⟨hc, _, _⟩ | ⟨hc, n, hp, hn1, hn2, _⟩
    · exact absurd (hs'.symm.trans h) hchanged
    · exact Or.inl hc
    · exact Or.inr (Or.inl hc)
    · exact Or.inr (Or.inr ⟨hc, n, hp, hn1, hn2⟩)

/-- The registry loop returns only files whose name is the requested one. -/
theorem findUploaded_name (files : List UploadedFile) (document_name : String)
    (f : UploadedFile) (h : findUploaded files document_name = some f) :
    f.name = document_name := by
  induction files with
  | nil => cases h
  | cons g rest ih =>
    unfold findUploaded at h
    split_ifs at h with hg
    · cases h; exact hg
    · exact ih h

/-- If no registry entry has the requested name the loop finds nothing. -/
theorem findUploaded_eq_none (files : List UploadedFile) (document_name : String)
    (h : ∀ f ∈ files, f.name ≠ document_name) :
    findUploaded files document_name = none := by
  induction files with
  | nil => rfl
  | cons g rest ih =>
    unfold findUploaded
    rw [if_neg (h g (List.mem_cons_self g rest))]
    exact ih fun f hf => h f (List.mem_cons_of_mem g hf)

/-- C1: a successful load (name found in the registry, supported
extension, parser succeeded) replaces the store with one satisfying
`totalPages = len(pages)`, `currentIndex = 0`, and `documentName` equal
to the loaded file's name (= the requested name). -/
theorem load_success_resets_store (P : Parsers) (uploaded : List UploadedFile)
    (document_name : String) (store? : Option DocumentStore)
    (file : UploadedFile) (docs : List Document)
    (hfind : findUploaded uploaded document_name = some file)
    (hparse : dispatchParse P (lowerStr (splitextExt file.name)) file.content =
      some (Except.ok docs)) :
    ∃ s : DocumentStore,
      (documentLoaderRun P uploaded document_name store?).store = some s ∧
      s.total_pages = (s.document_pages.length : Int) ∧
      s.current_page_index = 0 ∧
      s.document_name = file.name ∧
      s.document_name = document_name ∧
      s.document_pages = docs := by
  have hne : uploaded ≠ [] := by
    intro h
    subst h
    exact Option.noConfusion hfind
  have hname := findUploaded_name uploaded document_name file hfind
  unfold documentLoaderRun
  rw [if_neg hne, hfind]
  dsimp only
  rw [hparse]
  exact ⟨_, rfl, rfl, rfl, rfl, hname, rfl⟩

/-- C3: when the dispatched parser fails with message `e`, the call
returns (it does not raise) the user-facing string `"Error loading
document: " ++ e`, and an existing store is left fully unchanged. -/
theorem load_parser_failure_reports_and_preserves_store (P : Parsers)
    (uploaded : List UploadedFile) (document_name : String)
    (s : DocumentStore) (file : UploadedFile) (e : String)
    (hfind : findUploaded uploaded document_name = some file)
    (hparse : dispatchParse P (lowerStr (splitextExt file.name)) file.content =
      some (Except.error e)) :
    documentLoaderRun P uploaded document_name (some s) =
      { message := loadErrorMsg e, store := some s
        tempCreated := true, tempDeleted := false } := by
  have hne : uploaded ≠ [] := by
    intro h
    subst h
    exact Option.noConfusion hfind
  unfold documentLoaderRun
  rw [if_neg hne, hfind]
  dsimp only
  rw [hparse]
  rfl

/-- C7: requesting a name present in no registry entry fails with one of
the two not-uploaded messages, never touches the temporary file, and
leaves an existing store exactly as it was. -/
theorem load_unknown_name_preserves_store (P : Parsers)
    (uploaded : List UploadedFile) (document_name : String)
    (store? : Option DocumentStore)
    (hnot : ∀ f ∈ uploaded, f.name ≠ document_name) :
    ((documentLoaderRun P uploaded document_name store?).message = noFilesMsg ∨
     (documentLoaderRun P uploaded document_name store?).message =
       fileNotFoundMsg document_name) ∧
    (documentLoaderRun P uploaded document_name store?).tempCreated = false ∧
    (∀ s : DocumentStore, store? = some s →
      (documentLoaderRun P uploaded document_name store?).store = some s) := by
  by_cases hu : uploaded = []
  · subst hu
    refine ⟨Or.inl rfl, rfl, fun s hs => ?_⟩
    unfold documentLoaderRun
    rw [if_pos rfl, hs]
  · have hfind := findUploaded_eq_none uploaded document_name hnot
    unfold documentLoaderRun
    rw [if_neg hu, hfind]
    refine ⟨Or.inr rfl, rfl, fun s hs => ?_⟩
    subst hs
    rfl

/-- Parsers that always raise, for evaluating the loader on the
parser-failure path. -/
def failingParsers : Parsers :=
  { pdf := fun _ => Except.error "boom"
    word := fun _ => Except.error "boom"
    csv := fun _ => Except.error "boom"
    readTxt := fun _ => Except.error "boom" }

/-- C2 (evaluation): on a parser failure the temporary file is created
but NOT deleted — the `except` handler of `DocumentLoadTool._run`
returns without reaching either `os.unlink` call, so the unconditional
cleanup the specification requires does not happen on this exit path. -/
theorem load_parser_failure_leaks_tempfile :
    (documentLoaderRun failingParsers [{ name := "doc.pdf", content := [] }]
        "doc.pdf" none).tempCreated = true ∧
    (documentLoaderRun failingParsers [{ name := "doc.pdf", content := [] }]
        "doc.pdf" none).tempDeleted = false ∧
    (documentLoaderRun failingParsers [{ name := "doc.pdf", content := [] }]
        "doc.pdf" none).message = loadErrorMsg "boom" :=
  ⟨by decide, by decide, by decide⟩

/-- The catalog walk finds exactly the unique entry whose lists contain
the voice. -/
theorem findVoice_unique (catalog : List (String × VoiceLists))
    (voice lang : String) (vl : VoiceLists)
    (hin : (lang, vl) ∈ catalog)
    (hmem : voice ∈ vl.male ∨ voice ∈ vl.female)
    (huniq : ∀ q ∈ catalog,
      (voice ∈ q.2.male ∨ voice ∈ q.2.female) → q = (lang, vl)) :
    findVoice catalog voice = some (lang, vl) := by
  induction catalog with
  | nil => cases hin
  | cons p rest ih =>
    by_cases hp : voice ∈ p.2.male ∨ voice ∈ p.2.female
    · have hpe := huniq p (List.mem_cons_self p rest) hp
      unfold findVoice
      rw [if_pos hp, hpe]
    · unfold findVoice
      rw [if_neg hp]
      rcases List.mem_cons.mp hin with heq | hin'
      · exact absurd (heq ▸ hmem) hp
      · exact ih hin' fun q hq hq2 => huniq q (List.mem_cons_of_mem p hq) hq2

/-- If no catalog entry contains the voice the walk finds nothing. -/
theorem findVoice_eq_none (catalog : List (String × VoiceLists))
    (voice : String)
    (h : ∀ q ∈ catalog, voice ∉ q.2.male ∧ voice ∉ q.2.female) :
    findVoice catalog voice = none := by
  induction catalog with
  | nil => rfl
  | cons p rest ih =>
    unfold findVoice
    rw [if_neg ?hneg]
    · exact ih fun q hq => h q (List.mem_cons_of_mem p hq)
    case hneg =>
      obtain ⟨h1, h2⟩ := h p (List.mem_cons_self p rest)
      rintro (hm | hf)
      · exact h1 hm
      · exact h2 hf

/-- C8: when the voice id belongs to exactly one language's lists,
`set_voice` sets `current_language` to that language and
`selected_voice` to the id; when it belongs to none, it reports
not-found and changes nothing. -/
theorem set_voice_unique_match (cfg : VoiceConfig) (voice : String) :
    (∀ (lang : String) (vl : VoiceLists),
      (lang, vl) ∈ cfg.available_voices →
      (voice ∈ vl.male ∨ voice ∈ vl.female) →
      (∀ q ∈ cfg.available_voices,
        (voice ∈ q.2.male ∨ voice ∈ q.2.female) → q = (lang, vl)) →
      setVoice voice cfg =
        (voiceSetMsg voice lang,
         { cfg with selected_voice := voice, current_language := lang })) ∧
    ((∀ q ∈ cfg.available_voices, voice ∉ q.2.male ∧ voice ∉ q.2.female) →
      setVoice voice cfg = (voiceNotFoundMsg voice, cfg)) := by
  constructor
  · intro lang vl hin hmem huniq
    unfold setVoice
    rw [findVoice_unique cfg.available_voices voice lang vl hin hmem huniq]
  · intro hno
    unfold setVoice
    rw [findVoice_eq_none cfg.available_voices voice hno]

/-! ### Concrete instances for the witnesses -/

/-- A two-page loaded store used to instantiate the theorems. -/
def sampleStore : DocumentStore :=
  { document_pages := [{ page_content := "alpha" }, { page_content := "beta" }]
    current_page_index := 0
    total_pages := 2
    document_name := "notes.txt" }

/-- Parsers whose text reader succeeds with `"hello"` and whose binary
parsers fail, for instantiating the loader theorems. -/
def sampleParsers : Parsers :=
  { pdf := fun _ => Except.error "bad pdf"
    word := fun _ => Except.error "bad word"
    csv := fun _ => Except.error "bad csv"
    readTxt := fun _ => Except.ok "hello" }

/-- A two-language voice configuration for instantiating the voice
theorems. -/
def sampleVoiceConfig : VoiceConfig :=
  { enabled := true
    selected_voice := "Joanna"
    rate := "medium"
    current_language := "English"
    available_voices :=
      [("English", { male := ["Matthew", "Stephen"], female := ["Joanna", "Kendra"] }),
       ("Spanish", { male := ["Miguel", "Enrique"], female := ["Lupe", "Penelope"] })] }

/-- Witness for C1 at a `.txt` upload whose read succeeds. -/
theorem load_success_resets_store_witness :
    findUploaded [{ name := "a.txt", content := [104] }] "a.txt" =
      some { name := "a.txt", content := [104] } ∧
    dispatchParse sampleParsers (lowerStr (splitextExt "a.txt")) [104] =
      some (Except.ok [{ page_content := "hello" }]) ∧
    (∃ s : DocumentStore,
      (documentLoaderRun sampleParsers [{ name := "a.txt", content := [104] }]
          "a.txt" none).store = some s ∧
      s.total_pages = (s.document_pages.length : Int) ∧
      s.current_page_index = 0 ∧
      s.document_name = ({ name := "a.txt", content := [104] } : UploadedFile).name ∧
      s.document_name = "a.txt" ∧
      s.document_pages = [{ page_content := "hello" }]) :=
  ⟨by decide, rfl,
   load_success_resets_store sampleParsers [{ name := "a.txt", content := [104] }]
     "a.txt" none { name := "a.txt", content := [104] }
     [{ page_content := "hello" }] (by decide) rfl⟩

/-- Witness for C3 at a `.pdf` upload whose parser raises. -/
theorem load_parser_failure_witness :
    findUploaded [{ name := "b.pdf", content := [1] }] "b.pdf" =
      some { name := "b.pdf", content := [1] } ∧
    dispatchParse sampleParsers (lowerStr (splitextExt "b.pdf")) [1] =
      some (Except.error "bad pdf") ∧
    documentLoaderRun sampleParsers [{ name := "b.pdf", content := [1] }]
        "b.pdf" (some sampleStore) =
      { message := loadErrorMsg "bad pdf", store := some sampleStore
        tempCreated := true, tempDeleted := false } :=
  ⟨by decide, rfl,
   load_parser_failure_reports_and_preserves_store sampleParsers
     [{ name := "b.pdf", content := [1] }] "b.pdf" sampleStore
     { name := "b.pdf", content := [1] } "bad pdf" (by decide) rfl⟩

/-- Witness for C4 at the first-page edge of `sampleStore`. -/
theorem navigation_bounds_witness :
    sampleStore.document_pages ≠ [] ∧
    0 ≤ sampleStore.current_page_index ∧
    sampleStore.current_page_index < (sampleStore.document_pages.length : Int) ∧
    sampleStore.total_pages = (sampleStore.document_pages.length : Int) ∧
    pageReaderRun "previous_page" (some sampleStore) =
      (firstPageMsg, some sampleStore) :=
  ⟨by decide, by decide, by decide, by decide,
   (navigation_bounds_and_invariant sampleStore (by decide) (by decide)
     (by decide) (by decide)).2.2.2.1 rfl⟩

/-- Witness for C5 at the out-of-range request `go_to_page:5`. -/
theorem go_to_page_validation_witness :
    sampleStore.total_pages = (sampleStore.document_pages.length : Int) ∧
    parsePyInt "5" = some 5 ∧
    goToPage "5" sampleStore = (rangeErrMsg sampleStore.total_pages, sampleStore) :=
  ⟨by decide, by decide,
   (go_to_page_validation "5" sampleStore (by decide)).2.1 5 (by decide)
     (by decide)⟩

/-- Witness for C6 on the empty store. -/
theorem no_document_guidance_witness :
    emptyDocumentStore.document_pages = [] ∧
    pageReaderRun "next_page" none = (noStoreMsg, none) ∧
    pageReaderRun "next_page" (some emptyDocumentStore) =
      (noDocMsg, some emptyDocumentStore) :=
  ⟨rfl, (no_document_guidance "next_page" emptyDocumentStore).1,
   (no_document_guidance "next_page" emptyDocumentStore).2 rfl⟩

/-- Witness for C7 at a name absent from the registry. -/
theorem load_unknown_name_witness :
    (∀ f ∈ [({ name := "a.txt", content := [104] } : UploadedFile)],
      f.name ≠ "missing.txt") ∧
    (documentLoaderRun sampleParsers [{ name := "a.txt", content := [104] }]
        "missing.txt" (some sampleStore)).store = some sampleStore :=
  ⟨by decide,
   (load_unknown_name_preserves_store sampleParsers
      [{ name := "a.txt", content := [104] }] "missing.txt" (some sampleStore)
      (by decide)).2.2 sampleStore rfl⟩

/-- Witness for C8 at the voice `Lupe`, unique to `Spanish`. -/
theorem set_voice_unique_match_witness :
    ("Spanish", ({ male := ["Miguel", "Enrique"],
                   female := ["Lupe", "Penelope"] } : VoiceLists)) ∈
      sampleVoiceConfig.available_voices ∧
    ("Lupe" ∈ (["Miguel", "Enrique"] : List String) ∨
     "Lupe" ∈ (["Lupe", "Penelope"] : List String)) ∧
    setVoice "Lupe" sampleVoiceConfig =
      (voiceSetMsg "Lupe" "Spanish",
       { sampleVoiceConfig with
           selected_voice := "Lupe", current_language := "Spanish" }) :=
  ⟨by decide, by decide,
   (set_voice_unique_match sampleVoiceConfig "Lupe").1 "Spanish"
     { male := ["Miguel", "Enrique"], female := ["Lupe", "Penelope"] }
     (by decide) (by decide) (by decide)⟩

/-- Witness for C9 at the valid request `go_to_page:2`. -/
theorem go_to_page_idempotent_witness :
    parsePyInt "2" = some 2 ∧
    (1 : Int) ≤ 2 ∧
    (2 : Int) ≤ sampleStore.total_pages ∧
    sampleStore.total_pages = (sampleStore.document_pages.length : Int) ∧
    ((goToPage "2" (goToPage "2" sampleStore).2).1 =
       (goToPage "2" sampleStore).1 ∧
     (goToPage "2" (goToPage "2" sampleStore).2).2 =
       (goToPage "2" sampleStore).2 ∧
     (goToPage "2" sampleStore).2.current_page_index = 2 - 1) :=
  ⟨by decide, by decide, by decide, by decide,
   go_to_page_idempotent "2" 2 sampleStore (by decide) (by decide) (by decide)
     (by decide)⟩

/-- Witness for C10 at `read_current_page` on `sampleStore`. -/
theorem read_only_commands_frame_witness :
    sampleStore.document_pages ≠ [] ∧
    (pageReaderRun "read_current_page" (some sampleStore)).2 = some sampleStore :=
  ⟨by decide, (read_only_commands_frame sampleStore (by decide)).1⟩
